import Mathlib

/-!
Verification of the fingerprint-extraction pipeline of ClearUp
(`fingerprinting/genotype.py`).

Python strings are modelled as lists of characters (`PyStr`), so that every
string operation used by the code (split, join, replace, lower-casing,
sorting) is a structural Lean function that the kernel can evaluate.
Python `dict`s are modelled as functions built by successive overwriting
inserts.  Fallible Python code (exceptions such as `IndexError`, `KeyError`
and `ZeroDivisionError`) is modelled with `Option`.
-/

namespace ClearUp

/-- A Python string, modelled as its list of characters. -/
abbrev PyStr := List Char

/-- Python string join on the empty separator: concatenation of a list of strings in order. -/
def joinAll : List PyStr → PyStr
  | [] => []
  | s :: rest => s ++ joinAll rest

/-- Python `s.split(sep)` for a one-character separator: splits at every
occurrence of the separator, keeping empty fields, and yields `[""]` on the
empty string. -/
def pySplit (sep : Char) : PyStr → List PyStr
  | [] => [[]]
  | c :: rest =>
    match pySplit sep rest with
    | h :: t => if c = sep then [] :: h :: t else (c :: h) :: t
    | [] => [[c]]

/-- Python `sep.join(fields)` for a one-character separator. -/
def pyJoin (sep : Char) : List PyStr → PyStr
  | [] => []
  | [s] => s
  | s :: rest => s ++ sep :: pyJoin sep rest

/-- Python `sorted` on a list of strings: stable sort by the lexicographic
(code-point) order. -/
def pySorted (l : List PyStr) : List PyStr := List.insertionSort (· ≤ ·) l

/-- Fuel-driven helper for `pyReplace`; the fuel is the length of the string
being scanned, which bounds the number of steps. -/
def pyReplaceAux (pat repl : PyStr) : Nat → PyStr → PyStr
  | _, [] => []
  | 0, s => s
  | fuel + 1, c :: rest =>
    if pat ≠ [] ∧ pat.isPrefixOf (c :: rest) then
      repl ++ pyReplaceAux pat repl fuel (List.drop (pat.length - 1) rest)
    else
      c :: pyReplaceAux pat repl fuel rest

/-- Python `s.replace(pat, repl)` for a non-empty pattern: replaces every
occurrence, scanning left to right without overlap. -/
def pyReplace (s pat repl : PyStr) : PyStr := pyReplaceAux pat repl s.length s

/-- Modelled from the spec: `is_sex_chrom` is imported from
`fingerprinting/utils`, which is not among the sources at hand.  The spec
describes `ChromosomeClass` as a derived predicate computed from the
chromosome token by a case-insensitive match against the `X`/`Y`/`chrX`/`chrY`
forms. -/
def is_sex_chrom (chrom : PyStr) : Bool :=
  let c := chrom.map Char.toLower
  c = "x".data || c = "y".data || c = "chrx".data || c = "chry".data

/-- The fields of a pyvcf per-sample call (`rec.samples[0]`) that
`vcfrec_to_seq` reads: the calledness flag and the `gt_bases` string
(e.g. `"C/T"`). -/
structure CallData where
  called : Bool
  gt_bases : PyStr
deriving DecidableEq

/-- The fields of a pyvcf variant record that `genotype.py` reads:
chromosome, position, identifier, FILTER tags, the `DP` INFO value, the
`GENE` INFO value, and the call of the first sample. -/
structure VcfRecord where
  CHROM : PyStr
  POS : Int
  ID : PyStr
  FILTER : List PyStr
  DP : Int
  GENE : Option PyStr
  sample0 : CallData
deriving DecidableEq

/-- The constant `DEPTH_CUTOFF = 5` from `genotype.py`. -/
def DEPTH_CUTOFF : Int := 5

/-- The function `vcfrec_to_seq(rec, depth_cutoff)`: the genotype code emitted for one
variant record.  A record failing the depth cutoff or carrying an `MSI12` or
`InGap` filter tag is marked uncalled; a sex-chromosome record contributes
the empty string; a called record contributes its two allele bases sorted
and concatenated; an uncalled record contributes `NN`. -/
def vcfrec_to_seq (r : VcfRecord) (depth_cutoff : Int) : PyStr :=
  let depth_failed := r.DP < depth_cutoff
  let filter_failed := r.FILTER.any (fun v => v = "MSI12".data || v = "InGap".data)
  let called := if depth_failed || filter_failed then false else r.sample0.called
  if is_sex_chrom r.CHROM then []
  else if called then joinAll (pySorted (pySplit '/' r.sample0.gt_bases))
  else "NN".data

/-- The list of genotype codes emitted by `vcf_to_fasta`, one per record of
the variant file of the sample, in file order. -/
def fingerprintCodes (recs : List VcfRecord) (depth_cutoff : Int) : List PyStr :=
  recs.map (fun r => vcfrec_to_seq r depth_cutoff)

/-- The fingerprint body line written by `vcf_to_fasta`: the concatenation of
the genotype codes of all records. -/
def fingerprintLine (recs : List VcfRecord) (depth_cutoff : Int) : PyStr :=
  joinAll (fingerprintCodes recs depth_cutoff)

/-- The full per-sample fasta content written by `vcf_to_fasta`:
a `>name` header line followed by the fingerprint line. -/
def vcf_to_fasta_content (name : PyStr) (recs : List VcfRecord) (depth_cutoff : Int) : PyStr :=
  '>' :: (name ++ '\n' :: (fingerprintLine recs depth_cutoff ++ ['\n']))

/-- The genotype call of the record consists of exactly two single-base alleles
(`x/y`), which is what the upstream `TYPE=SNV`/`TYPE=REF` filter guarantees
for the records reaching the encoder. -/
def DiploidCall (r : VcfRecord) : Prop :=
  (pySplit '/' r.sample0.gt_bases).length = 2 ∧
  ∀ a ∈ pySplit '/' r.sample0.gt_bases, a.length = 1

instance (r : VcfRecord) : Decidable (DiploidCall r) := by
  unfold DiploidCall; infer_instance

/-- The body of the `_fix_vcf` rewrite loop for a single line (lines are kept
without their trailing newline).  Header lines pass through.  On a data line
the fields are split on tabs; `none` models the `IndexError` Python raises
when fewer than five fields are present.  When the REF field is `.` or empty,
REF and ALT are overwritten with `.`, the fields are re-joined, and the
`=NA;` and `=;` INFO values are rewritten to `=.;`; otherwise the line passes
through unchanged. -/
def fix_line (l : PyStr) : Option PyStr :=
  if "#".data.isPrefixOf l then some l
  else
    let fs := pySplit '\t' l
    if fs.length < 5 then none
    else
      let ref := fs.getD 3 []
      if ref = ".".data ∨ ref = [] then
        some (pyReplace
               (pyReplace (pyJoin '\t' ((fs.set 3 ".".data).set 4 ".".data))
                 "=NA;".data "=.;".data)
               "=;".data "=.;".data)
      else some l

/-- A Python loop that transforms each element and aborts on the first
exception: the common shape of the `_fix_vcf` and `_annotate_vcf` passes. -/
def mapLines {α β : Type} (f : α → Option β) : List α → Option (List β)
  | [] => some []
  | a :: rest =>
    match f a, mapLines f rest with
    | some b, some bs => some (b :: bs)
    | _, _ => none

/-- The rewrite pass of `_fix_vcf` applied to the list of lines of the raw variant file. -/
def fix_vcf (lines : List PyStr) : Option (List PyStr) := mapLines fix_line lines

/-- The trailing integrity assertion and rename of `_fix_vcf`: the fixed file
replaces the original only when the line counts agree; on a mismatch the
assert fires (`none`) and the original is kept. -/
def fix_vcf_replace (lines : List PyStr) : Option (List PyStr) :=
  match fix_vcf lines with
  | none => none
  | some fixed => if fixed.length = lines.length then some fixed else none

/-- A Python `dict` built by successive key assignments (as in `dict(zip(..))`
and the `sex_by_sample[..] = ..` loop): later entries overwrite earlier ones. -/
def pyDict {κ α : Type} [DecidableEq κ] (ps : List (κ × α)) : κ → Option α :=
  ps.foldl (fun m kv => fun k => if k = kv.1 then some kv.2 else m k) (fun _ => none)

/-- The body of the `_annotate_vcf` loop for a single record: look up the gene
and rsID keyed by the `(CHROM, POS)` of the record, write the gene into the INFO
map and overwrite the record identifier.  `none` models the `KeyError` on a
lookup miss. -/
def annotate_rec (gene_by rsid_by : PyStr × Int → Option PyStr) (r : VcfRecord) :
    Option VcfRecord :=
  match gene_by (r.CHROM, r.POS), rsid_by (r.CHROM, r.POS) with
  | some g, some rs => some { r with GENE := some g, ID := rs }
  | _, _ => none

/-- A variant file as pyvcf sees it: the header lines (reproduced verbatim by
the writer) and the data records. -/
structure VcfFile where
  headers : List PyStr
  records : List VcfRecord
deriving DecidableEq

/-- Total number of lines of a variant file: headers plus one line per record. -/
def lineCount (f : VcfFile) : Nat := f.headers.length + f.records.length

/-- The annotation pass `_annotate_vcf`: every record is annotated in order; the headers are
reproduced by the vcf writer. -/
def annotate_file (gene_by rsid_by : PyStr × Int → Option PyStr) (f : VcfFile) :
    Option VcfFile :=
  match mapLines (annotate_rec gene_by rsid_by) f.records with
  | some rs => some ⟨f.headers, rs⟩
  | none => none

/-- The trailing integrity assertion and rename of `_annotate_vcf`: the
annotated file replaces the original only when the line counts agree. -/
def annotate_file_replace (gene_by rsid_by : PyStr × Int → Option PyStr) (f : VcfFile) :
    Option VcfFile :=
  match annotate_file gene_by rsid_by f with
  | none => none
  | some out => if lineCount out = lineCount f then some out else none

/-- A pipeline input sample: a name and a path to its alignment file. -/
structure SampleRef where
  name : PyStr
  bam : PyStr
deriving DecidableEq

/-- The fingerprint-merging computation of `genotype`: the cohort fasta is the
concatenation of the given per-sample fasta contents, in order. -/
def merge_fasta (fastas : List PyStr) : PyStr := joinAll fastas

/-- The merging step together with its `can_reuse` guard: when the cohort file
is already up to date (`reuse = true`) the existing file is kept untouched;
otherwise the concatenation is recomputed.  The boolean in the result records
whether a recomputation happened. -/
def merge_step (reuse : Bool) (existing : PyStr) (fastas : List PyStr) : PyStr × Bool :=
  if reuse then (existing, false) else (merge_fasta fastas, true)

/-- The cohort fingerprint content produced by the merging loop of `genotype`:
one constituent per supplied sample, looked up by sample name, in the order
the samples were supplied. -/
def cohort_fasta (samples : List SampleRef) (fasta_by : PyStr → PyStr) : PyStr :=
  merge_fasta (samples.map (fun s => fasta_by s.name))

/-- The map `vcf_by_sample = dict(zip([s.name for s in samples], vcfs))` from
`genotype`: the per-sample variant-file map, keyed by sample name. -/
def vcf_by_sample (samples : List SampleRef) (vcfs : List PyStr) : PyStr → Option PyStr :=
  pyDict ((samples.map (fun s => s.name)).zip vcfs)

/-- The `sex_by_sample` map built by the sex-determination loop of `genotype`:
one assignment per sample, keyed by sample name. -/
def sex_by_sample (samples : List SampleRef) (sex_of : SampleRef → PyStr) :
    PyStr → Option PyStr :=
  pyDict (samples.map (fun s => (s.name, sex_of s)))

/-- The function `calc_avg_depth`: the mean of the `DP` INFO values over all records of a
variant file.  `none` models the `ZeroDivisionError` Python raises when the
file has no records. -/
def calc_avg_depth (recs : List VcfRecord) : Option ℚ :=
  let depths : List Int := recs.map (fun r => r.DP)
  if depths.length = 0 then none
  else some ((depths.sum : ℚ) / (depths.length : ℚ))

/-! Helper lemmas. -/

theorem joinAll_length (L : List PyStr) : (joinAll L).length = (L.map List.length).sum := by
  induction L with
  | nil => rfl
  | cons s rest ih => simp [joinAll, ih]

theorem pySorted_perm (l : List PyStr) : List.Perm (pySorted l) l :=
  List.perm_insertionSort _ l

theorem pySorted_sorted (l : List PyStr) : List.Sorted (· ≤ ·) (pySorted l) :=
  List.sorted_insertionSort _ l

theorem pySorted_eq_of_perm {l1 l2 : List PyStr} (h : List.Perm l1 l2) :
    pySorted l1 = pySorted l2 :=
  List.eq_of_perm_of_sorted
    ((pySorted_perm l1).trans (h.trans (pySorted_perm l2).symm))
    (pySorted_sorted l1) (pySorted_sorted l2)

theorem vcfrec_to_seq_called (r : VcfRecord) (cutoff : Int)
    (hauto : is_sex_chrom r.CHROM = false)
    (hdepth : ¬ r.DP < cutoff)
    (hfil : ∀ v ∈ r.FILTER, v ≠ "MSI12".data ∧ v ≠ "InGap".data)
    (hcalled : r.sample0.called = true) :
    vcfrec_to_seq r cutoff = joinAll (pySorted (pySplit '/' r.sample0.gt_bases)) := by
  have hf : r.FILTER.any (fun v => v = "MSI12".data || v = "InGap".data) = false := by
    simp only [List.any_eq_false]
    intro v hv
    simp [(hfil v hv).1, (hfil v hv).2]
  simp [vcfrec_to_seq, hauto, hdepth, hf, hcalled]

theorem vcfrec_to_seq_masked (r : VcfRecord) (cutoff : Int)
    (hauto : is_sex_chrom r.CHROM = false)
    (hmask : r.DP < cutoff ∨ "MSI12".data ∈ r.FILTER ∨ "InGap".data ∈ r.FILTER) :
    vcfrec_to_seq r cutoff = "NN".data := by
  rcases hmask with h | h | h
  · simp [vcfrec_to_seq, hauto, h]
  · have hf : r.FILTER.any (fun v => v = "MSI12".data || v = "InGap".data) = true :=
      List.any_eq_true.mpr ⟨_, h, by simp⟩
    simp [vcfrec_to_seq, hauto, hf]
  · have hf : r.FILTER.any (fun v => v = "MSI12".data || v = "InGap".data) = true :=
      List.any_eq_true.mpr ⟨_, h, by simp⟩
    simp [vcfrec_to_seq, hauto, hf]

theorem vcfrec_to_seq_len_two (r : VcfRecord) (cutoff : Int)
    (hauto : is_sex_chrom r.CHROM = false) (hdip : DiploidCall r) :
    (vcfrec_to_seq r cutoff).length = 2 := by
  obtain ⟨h2, h1⟩ := hdip
  obtain ⟨x, y, hxy⟩ := List.length_eq_two.mp h2
  unfold vcfrec_to_seq
  simp only [hauto, Bool.false_eq_true, if_false]
  split
  · simp
  · split
    · rw [joinAll_length, ((pySorted_perm (pySplit '/' r.sample0.gt_bases)).map List.length).sum_eq,
        hxy]
      have hx : x.length = 1 := h1 x (by rw [hxy]; simp)
      have hy : y.length = 1 := h1 y (by rw [hxy]; simp)
      simp [hx, hy]
    · rfl

theorem mapLines_length {α β : Type} (f : α → Option β) :
    ∀ (l : List α) (out : List β), mapLines f l = some out → out.length = l.length := by
  intro l
  induction l with
  | nil =>
    intro out h
    simp only [mapLines, Option.some.injEq] at h
    simp [← h]
  | cons a rest ih =>
    intro out h
    unfold mapLines at h
    cases hfa : f a with
    | none => rw [hfa] at h; simp at h
    | some b =>
      rw [hfa] at h
      cases hrest : mapLines f rest with
      | none => rw [hrest] at h; simp at h
      | some bs =>
        rw [hrest] at h
        simp only [Option.some.injEq] at h
        simp [← h, ih bs hrest]

theorem pyDict_concat {κ α : Type} [DecidableEq κ] (ps : List (κ × α)) (kv : κ × α) (k : κ) :
    pyDict (ps ++ [kv]) k = if k = kv.1 then some kv.2 else pyDict ps k := by
  unfold pyDict
  rw [List.foldl_append]
  rfl

theorem pyDict_lookup {κ α : Type} [DecidableEq κ] (ps : List (κ × α)) (k : κ) :
    pyDict ps k = ((ps.filter (fun p => p.1 = k)).getLast?).map Prod.snd := by
  induction ps using List.reverseRecOn with
  | nil => rfl
  | append_singleton ps kv ih =>
    rw [pyDict_concat, List.filter_append]
    by_cases hk : k = kv.1
    · simp [hk, List.getLast?_concat]
    · have : kv.1 ≠ k := fun h => hk h.symm
      simp [hk, this, ih]

theorem vcfrec_to_seq_uncalled (r : VcfRecord) (cutoff : Int)
    (hauto : is_sex_chrom r.CHROM = false)
    (hcalled : r.sample0.called = false) :
    vcfrec_to_seq r cutoff = "NN".data := by
  simp [vcfrec_to_seq, hauto, hcalled]

/-! Claim theorems. -/

/-- C1: every emitted fingerprint carries one genotype code per autosomal
panel locus, in panel order: for a variant file holding one autosomal
record per panel locus (the pileup contract), the code list is the record
list mapped in order, it has exactly `nLoci` entries, every entry is two
characters, and the emitted fingerprint line has length `2 * nLoci` — the
same for every sample of the cohort. -/
theorem fingerprint_fixed_length (recs : List VcfRecord) (cutoff : Int) (nLoci : Nat)
    (hauto : ∀ r ∈ recs, is_sex_chrom r.CHROM = false)
    (hdip : ∀ r ∈ recs, DiploidCall r)
    (hpanel : recs.length = nLoci) :
    fingerprintCodes recs cutoff = recs.map (fun r => vcfrec_to_seq r cutoff)
    ∧ (fingerprintCodes recs cutoff).length = nLoci
    ∧ (∀ c ∈ fingerprintCodes recs cutoff, c.length = 2)
    ∧ (fingerprintLine recs cutoff).length = 2 * nLoci := by
  have hlen2 : ∀ c ∈ fingerprintCodes recs cutoff, c.length = 2 := by
    intro c hc
    obtain ⟨r, hr, rfl⟩ := List.mem_map.mp hc
    exact vcfrec_to_seq_len_two r cutoff (hauto r hr) (hdip r hr)
  refine ⟨rfl, by simp [fingerprintCodes, hpanel], hlen2, ?_⟩
  rw [fingerprintLine, joinAll_length]
  have hall : ∀ x ∈ (fingerprintCodes recs cutoff).map List.length, x = 2 := by
    intro x hx
    obtain ⟨c, hc, rfl⟩ := List.mem_map.mp hx
    exact hlen2 c hc
  rw [List.sum_eq_card_nsmul _ 2 hall]
  simp [fingerprintCodes, hpanel, Nat.mul_comm]

def c1rec1 : VcfRecord :=
  { CHROM := "chr1".data, POS := 100, ID := "rs1".data, FILTER := [], DP := 30,
    GENE := none, sample0 := { called := true, gt_bases := "C/T".data } }

def c1rec2 : VcfRecord :=
  { CHROM := "chr2".data, POS := 200, ID := "rs2".data, FILTER := [], DP := 3,
    GENE := none, sample0 := { called := true, gt_bases := "A/A".data } }

/-- Witness for C1 on a concrete two-locus autosomal panel (one called
record, one depth-masked record). -/
theorem fingerprint_fixed_length_witness :
    (fingerprintCodes [c1rec1, c1rec2] DEPTH_CUTOFF).length = 2
    ∧ (fingerprintLine [c1rec1, c1rec2] DEPTH_CUTOFF).length = 2 * 2 := by
  have h := fingerprint_fixed_length [c1rec1, c1rec2] DEPTH_CUTOFF 2
    (by decide) (by decide) (by decide)
  exact ⟨h.2.1, h.2.2.2⟩

def c2rec : VcfRecord :=
  { CHROM := "chrX".data, POS := 200, ID := "rs2".data, FILTER := [], DP := 20,
    GENE := none, sample0 := { called := true, gt_bases := "A/A".data } }

/-- C2 counterexample: a called, deep-coverage record on chromosome X emits
the empty string, which is neither a two-character code nor the sentinel
`NN`; so the claimed shape does not hold for every variant record. -/
theorem genotype_code_shape_counterexample :
    vcfrec_to_seq c2rec DEPTH_CUTOFF = []
    ∧ ¬((vcfrec_to_seq c2rec DEPTH_CUTOFF).length = 2
        ∨ vcfrec_to_seq c2rec DEPTH_CUTOFF = "NN".data) := by decide

/-- C2 amended: for a record whose genotype call has exactly two single-base
alleles, the code emitted on an autosomal chromosome is either the sentinel
`NN` or the two allele bases of the call in sorted order (two characters);
on a sex-linked chromosome the emitted code is the empty string. -/
theorem genotype_code_shape (r : VcfRecord) (cutoff : Int) (hdip : DiploidCall r) :
    (is_sex_chrom r.CHROM = true → vcfrec_to_seq r cutoff = [])
    ∧ (is_sex_chrom r.CHROM = false →
        vcfrec_to_seq r cutoff = "NN".data
        ∨ (vcfrec_to_seq r cutoff = joinAll (pySorted (pySplit '/' r.sample0.gt_bases))
           ∧ (vcfrec_to_seq r cutoff).length = 2
           ∧ List.Perm (pySorted (pySplit '/' r.sample0.gt_bases))
               (pySplit '/' r.sample0.gt_bases)
           ∧ List.Sorted (· ≤ ·) (pySorted (pySplit '/' r.sample0.gt_bases)))) := by
  constructor
  · intro hsex
    simp [vcfrec_to_seq, hsex]
  · intro hauto
    by_cases hd : r.DP < cutoff
    · exact Or.inl (vcfrec_to_seq_masked r cutoff hauto (Or.inl hd))
    · by_cases hm : "MSI12".data ∈ r.FILTER
      · exact Or.inl (vcfrec_to_seq_masked r cutoff hauto (Or.inr (Or.inl hm)))
      · by_cases hg : "InGap".data ∈ r.FILTER
        · exact Or.inl (vcfrec_to_seq_masked r cutoff hauto (Or.inr (Or.inr hg)))
        · cases hc : r.sample0.called with
          | false => exact Or.inl (vcfrec_to_seq_uncalled r cutoff hauto hc)
          | true =>
            refine Or.inr ⟨vcfrec_to_seq_called r cutoff hauto hd
              (fun v hv => ⟨fun h => hm (h ▸ hv), fun h => hg (h ▸ hv)⟩) hc, ?_,
              pySorted_perm _, pySorted_sorted _⟩
            exact vcfrec_to_seq_len_two r cutoff hauto ⟨hdip.1, hdip.2⟩

def c2wrec : VcfRecord :=
  { CHROM := "chr1".data, POS := 100, ID := "rs1".data, FILTER := [], DP := 30,
    GENE := none, sample0 := { called := true, gt_bases := "T/C".data } }

/-- Witness for the amended C2 on a concrete called autosomal record. -/
theorem genotype_code_shape_witness :
    vcfrec_to_seq c2wrec DEPTH_CUTOFF = "NN".data
    ∨ (vcfrec_to_seq c2wrec DEPTH_CUTOFF = joinAll (pySorted (pySplit '/' c2wrec.sample0.gt_bases))
       ∧ (vcfrec_to_seq c2wrec DEPTH_CUTOFF).length = 2
       ∧ List.Perm (pySorted (pySplit '/' c2wrec.sample0.gt_bases))
           (pySplit '/' c2wrec.sample0.gt_bases)
       ∧ List.Sorted (· ≤ ·) (pySorted (pySplit '/' c2wrec.sample0.gt_bases))) :=
  (genotype_code_shape c2wrec DEPTH_CUTOFF (by decide)).2 (by decide)

/-- C3: a record on a sex-linked chromosome is excluded from the fingerprint
— it contributes the empty string, hence no genotype code — whatever its
depth, filter tags or allele calls. -/
theorem sex_chrom_excluded (r : VcfRecord) (cutoff : Int)
    (hsex : is_sex_chrom r.CHROM = true) :
    vcfrec_to_seq r cutoff = [] := by
  simp [vcfrec_to_seq, hsex]

def c3rec : VcfRecord :=
  { CHROM := "chrY".data, POS := 1, ID := "rs9".data, FILTER := ["InGap".data], DP := 1,
    GENE := none, sample0 := { called := true, gt_bases := "G/G".data } }

/-- Witness for C3 on a concrete chromosome-Y record with low depth and a
disqualifying filter tag. -/
theorem sex_chrom_excluded_witness :
    is_sex_chrom c3rec.CHROM = true ∧ vcfrec_to_seq c3rec DEPTH_CUTOFF = [] :=
  ⟨by decide, sex_chrom_excluded c3rec DEPTH_CUTOFF (by decide)⟩

/-- C4: an autosomal record is masked to `NN` whenever its depth is strictly
below the cutoff or it carries an `MSI12` or `InGap` filter tag, whatever its
allele calls; a record whose depth equals the cutoff is not masked by depth
and, when clean and called, encodes its sorted allele bases; the default
cutoff is 5. -/
theorem depth_filter_masking (r : VcfRecord) (cutoff : Int)
    (hauto : is_sex_chrom r.CHROM = false) :
    ((r.DP < cutoff ∨ "MSI12".data ∈ r.FILTER ∨ "InGap".data ∈ r.FILTER) →
      vcfrec_to_seq r cutoff = "NN".data)
    ∧ (r.DP = cutoff → "MSI12".data ∉ r.FILTER → "InGap".data ∉ r.FILTER →
        r.sample0.called = true →
        vcfrec_to_seq r cutoff = joinAll (pySorted (pySplit '/' r.sample0.gt_bases)))
    ∧ DEPTH_CUTOFF = 5 := by
  refine ⟨fun h => vcfrec_to_seq_masked r cutoff hauto h, ?_, rfl⟩
  intro hdp hm hg hc
  exact vcfrec_to_seq_called r cutoff hauto (by omega)
    (fun v hv => ⟨fun h => hm (h ▸ hv), fun h => hg (h ▸ hv)⟩) hc

def c4rec_gap : VcfRecord :=
  { CHROM := "chr1".data, POS := 100, ID := "rs1".data, FILTER := ["InGap".data], DP := 30,
    GENE := none, sample0 := { called := true, gt_bases := "C/T".data } }

def c4rec_eq : VcfRecord :=
  { CHROM := "chr1".data, POS := 100, ID := "rs1".data, FILTER := [], DP := 5,
    GENE := none, sample0 := { called := true, gt_bases := "C/T".data } }

/-- Witness for C4: a deep `InGap` record masks to `NN`; a record with depth
exactly 5 at the default cutoff is not masked and encodes `CT`. -/
theorem depth_filter_masking_witness :
    vcfrec_to_seq c4rec_gap DEPTH_CUTOFF = "NN".data
    ∧ vcfrec_to_seq c4rec_eq DEPTH_CUTOFF = "CT".data := by
  constructor
  · exact (depth_filter_masking c4rec_gap DEPTH_CUTOFF (by decide)).1
      (Or.inr (Or.inr (by decide)))
  · have h := (depth_filter_masking c4rec_eq DEPTH_CUTOFF (by decide)).2.1
      (by decide) (by decide) (by decide) rfl
    rw [h]
    decide

/-- C5: the encoder sorts the two allele bases before concatenating, so
encoding is order-independent: two called autosomal records whose allele
lists are permutations of each other emit the same genotype code. -/
theorem genotype_order_independent (r1 r2 : VcfRecord) (cutoff : Int)
    (h1 : is_sex_chrom r1.CHROM = false) (h2 : is_sex_chrom r2.CHROM = false)
    (hd1 : ¬ r1.DP < cutoff) (hd2 : ¬ r2.DP < cutoff)
    (hf1 : ∀ v ∈ r1.FILTER, v ≠ "MSI12".data ∧ v ≠ "InGap".data)
    (hf2 : ∀ v ∈ r2.FILTER, v ≠ "MSI12".data ∧ v ≠ "InGap".data)
    (hc1 : r1.sample0.called = true) (hc2 : r2.sample0.called = true)
    (hperm : List.Perm (pySplit '/' r1.sample0.gt_bases) (pySplit '/' r2.sample0.gt_bases)) :
    vcfrec_to_seq r1 cutoff = vcfrec_to_seq r2 cutoff := by
  rw [vcfrec_to_seq_called r1 cutoff h1 hd1 hf1 hc1,
    vcfrec_to_seq_called r2 cutoff h2 hd2 hf2 hc2,
    pySorted_eq_of_perm hperm]

def c5rec_ct : VcfRecord :=
  { CHROM := "chr7".data, POS := 300, ID := "rs3".data, FILTER := [], DP := 12,
    GENE := none, sample0 := { called := true, gt_bases := "C/T".data } }

def c5rec_tc : VcfRecord :=
  { CHROM := "chr7".data, POS := 300, ID := "rs3".data, FILTER := [], DP := 12,
    GENE := none, sample0 := { called := true, gt_bases := "T/C".data } }

/-- Witness for C5: the calls `C/T` and `T/C` both encode to `CT`. -/
theorem genotype_order_independent_witness :
    vcfrec_to_seq c5rec_ct DEPTH_CUTOFF = vcfrec_to_seq c5rec_tc DEPTH_CUTOFF
    ∧ vcfrec_to_seq c5rec_ct DEPTH_CUTOFF = "CT".data := by
  constructor
  · exact genotype_order_independent c5rec_ct c5rec_tc DEPTH_CUTOFF (by decide) (by decide)
      (by decide) (by decide) (by decide) (by decide) rfl rfl (by decide)
  · decide

/-- C6: both the repair pass and the annotation pass preserve the line count
of the file they transform (headers included), so their trailing integrity
assertion passes and the assert-guarded replacement of the original file
goes through exactly on success. -/
theorem line_count_preserved (ls : List PyStr) (out : List PyStr)
    (g i : PyStr × Int → Option PyStr) (f : VcfFile) (out2 : VcfFile)
    (hfix : fix_vcf ls = some out)
    (hann : annotate_file g i f = some out2) :
    out.length = ls.length
    ∧ fix_vcf_replace ls = some out
    ∧ lineCount out2 = lineCount f
    ∧ annotate_file_replace g i f = some out2 := by
  have h1 : out.length = ls.length := mapLines_length fix_line ls out hfix
  have h3 : lineCount out2 = lineCount f := by
    unfold annotate_file at hann
    cases hmap : mapLines (annotate_rec g i) f.records with
    | none => rw [hmap] at hann; simp at hann
    | some rs =>
      rw [hmap] at hann
      simp only [Option.some.injEq] at hann
      rw [← hann]
      simp [lineCount, mapLines_length _ f.records rs hmap]
  refine ⟨h1, ?_, h3, ?_⟩
  · unfold fix_vcf_replace
    rw [hfix]
    simp [h1]
  · unfold annotate_file_replace
    rw [hann]
    simp [h3]

def c6lines : List PyStr :=
  ["#H".data, "chr1\t100\trs1\t\t\t0\tPASS\tSN=;HICOV=NA;".data]

def c6fixed : List PyStr :=
  ["#H".data, "chr1\t100\trs1\t.\t.\t0\tPASS\tSN=.;HICOV=.;".data]

def c6g : PyStr × Int → Option PyStr :=
  fun k => if k = ("chr1".data, (100 : Int)) then some "GENEA".data else none

def c6i : PyStr × Int → Option PyStr :=
  fun k => if k = ("chr1".data, (100 : Int)) then some "rs1".data else none

def c6rec : VcfRecord :=
  { CHROM := "chr1".data, POS := 100, ID := ".".data, FILTER := [], DP := 9,
    GENE := none, sample0 := { called := true, gt_bases := "C/C".data } }

def c6file : VcfFile := ⟨["#H".data], [c6rec]⟩

def c6ann : VcfFile :=
  ⟨["#H".data], [{ c6rec with GENE := some "GENEA".data, ID := "rs1".data }]⟩

/-- Witness for C6 on a concrete two-line raw file and a concrete one-record
annotation pass. -/
theorem line_count_preserved_witness :
    fix_vcf c6lines = some c6fixed
    ∧ c6fixed.length = c6lines.length
    ∧ fix_vcf_replace c6lines = some c6fixed
    ∧ lineCount c6ann = lineCount c6file
    ∧ annotate_file_replace c6g c6i c6file = some c6ann := by
  have hfix : fix_vcf c6lines = some c6fixed := by decide
  have hann : annotate_file c6g c6i c6file = some c6ann := by decide
  have h := line_count_preserved c6lines c6fixed c6g c6i c6file c6ann hfix hann
  exact ⟨hfix, h.1, h.2.1, h.2.2.1, h.2.2.2⟩

def c7line : PyStr := "chr1\t100\trs1\t.\tG\t10\tPASS\tSN=NA;DP=5".data

/-- C7 counterexample: a data line whose REF field is `.` — not empty — and
whose ALT is `G` is, by the claim, one of the records that should pass
through byte-identical; the repairer nevertheless rewrites it, clobbering
the ALT to `.` and the `=NA;` INFO value to `=.;`. -/
theorem fix_line_counterexample :
    fix_line c7line = some "chr1\t100\trs1\t.\t.\t10\tPASS\tSN=.;DP=5".data
    ∧ fix_line c7line ≠ some c7line := by decide

/-- C7 amended: a header line passes through unchanged; a data line is
rewritten exactly when its REF field is `.` or empty, in which case REF and
ALT are set to `.`, the fields re-joined, and the `=NA;` and `=;` INFO
values rewritten to `=.;`; a data line with any other REF passes through
byte-identical. -/
theorem fix_line_behaviour (l : PyStr) (hlen : 5 ≤ (pySplit '\t' l).length) :
    ("#".data.isPrefixOf l = true → fix_line l = some l)
    ∧ ("#".data.isPrefixOf l = false →
        ((pySplit '\t' l).getD 3 [] = ".".data ∨ (pySplit '\t' l).getD 3 [] = [] →
          fix_line l = some (pyReplace
            (pyReplace (pyJoin '\t' (((pySplit '\t' l).set 3 ".".data).set 4 ".".data))
              "=NA;".data "=.;".data)
            "=;".data "=.;".data))
        ∧ ((pySplit '\t' l).getD 3 [] ≠ ".".data → (pySplit '\t' l).getD 3 [] ≠ [] →
          fix_line l = some l)) := by
  have hnl : ¬ (pySplit '\t' l).length < 5 := Nat.not_lt.mpr hlen
  constructor
  · intro hp
    simp [fix_line, hp]
  · intro hp
    constructor
    · intro href
      simp only [fix_line, hp, Bool.false_eq_true, if_false]
      rw [if_neg hnl, if_pos href]
    · intro h1 h2
      simp only [fix_line, hp, Bool.false_eq_true, if_false]
      rw [if_neg hnl, if_neg]
      rintro (h | h)
      · exact h1 h
      · exact h2 h

def c7wline_nocall : PyStr := "chr1\t200\trs2\t\t\t0\tPASS\tSN=;HICOV=NA;".data

def c7wline_normal : PyStr := "chr1\t300\trs3\tC\tT\t50\tPASS\tDP=9".data

/-- Witness for the amended C7: an empty-REF no-call line is rewritten to the
normalized form, and an ordinary called line passes through byte-identical. -/
theorem fix_line_behaviour_witness :
    fix_line c7wline_nocall = some "chr1\t200\trs2\t.\t.\t0\tPASS\tSN=.;HICOV=.;".data
    ∧ fix_line c7wline_normal = some c7wline_normal := by
  constructor
  · have h := ((fix_line_behaviour c7wline_nocall (by decide)).2 (by decide)).1
      (Or.inr (by decide))
    rw [h]
    decide
  · exact ((fix_line_behaviour c7wline_normal (by decide)).2 (by decide)).2
      (by decide) (by decide)

/-- C8: the cohort fingerprint file is the concatenation of the per-sample
fingerprint contents in the order they are supplied, and the merge is
idempotent: when the reuse check holds and the existing cohort file is the
previous merge result, a re-run keeps the file byte-identical and performs
no recomputation. -/
theorem merge_order_idempotent (f : PyStr) (rest : List PyStr) (fastas : List PyStr)
    (prev : PyStr) (hprev : prev = merge_fasta fastas) :
    merge_fasta (f :: rest) = f ++ merge_fasta rest
    ∧ merge_step true prev fastas = (merge_fasta fastas, false)
    ∧ (merge_step true prev fastas).2 = false := by
  refine ⟨rfl, ?_, rfl⟩
  simp [merge_step, hprev]

/-- Witness for C8 on a concrete two-sample cohort. -/
theorem merge_order_idempotent_witness :
    merge_fasta [">A\nCT\n".data, ">B\nNN\n".data] = ">A\nCT\n".data ++ merge_fasta [">B\nNN\n".data]
    ∧ merge_step true ">A\nCT\n>B\nNN\n".data [">A\nCT\n".data, ">B\nNN\n".data]
        = (merge_fasta [">A\nCT\n".data, ">B\nNN\n".data], false) := by
  have h := merge_order_idempotent ">A\nCT\n".data [">B\nNN\n".data]
    [">A\nCT\n".data, ">B\nNN\n".data] ">A\nCT\n>B\nNN\n".data (by decide)
  exact ⟨h.1, h.2.1⟩

/-- C9: the average-depth computation fails on a variant file with no
records — the divisor is the record count, which is zero — and on a
non-empty file returns the sum of the `DP` INFO values divided by the
number of records. -/
theorem avg_depth_requires_records (recs : List VcfRecord) (hne : recs ≠ []) :
    calc_avg_depth [] = none
    ∧ calc_avg_depth recs
        = some ((((recs.map (fun r => r.DP) : List Int)).sum : ℚ) / (recs.length : ℚ)) := by
  refine ⟨rfl, ?_⟩
  have hlen : (recs.map (fun r => r.DP)).length = recs.length := by simp
  have hz : ¬ (recs.map (fun r => r.DP)).length = 0 := by
    rw [hlen]
    exact fun h => hne (List.length_eq_zero.mp h)
  simp only [calc_avg_depth]
  rw [if_neg hz, hlen]

def c9rec1 : VcfRecord :=
  { CHROM := "chr1".data, POS := 10, ID := "rs4".data, FILTER := [], DP := 7,
    GENE := none, sample0 := { called := true, gt_bases := "A/C".data } }

def c9rec2 : VcfRecord :=
  { CHROM := "chr2".data, POS := 20, ID := "rs5".data, FILTER := [], DP := 9,
    GENE := none, sample0 := { called := true, gt_bases := "G/G".data } }

/-- Witness for C9: a two-record file with depths 7 and 9 averages to 8, and
the empty file fails. -/
theorem avg_depth_requires_records_witness :
    calc_avg_depth [] = none ∧ calc_avg_depth [c9rec1, c9rec2] = some 8 := by
  have h := avg_depth_requires_records [c9rec1, c9rec2] (by decide)
  refine ⟨h.1, ?_⟩
  rw [h.2]
  norm_num [c9rec1, c9rec2]

/-- C10: the per-sample variant-file and sex-call maps returned by the
pipeline are Python dicts keyed by sample name — a duplicated sample name
keeps only the entry of the last such sample — while the cohort fasta still
receives one constituent per supplied sample, in supply order. -/
theorem maps_keyed_by_name (samples : List SampleRef) (vcfs : List PyStr)
    (sex_of : SampleRef → PyStr) (fasta_by : PyStr → PyStr) (k : PyStr) :
    vcf_by_sample samples vcfs k
      = ((((samples.map (fun s => s.name)).zip vcfs).filter
          (fun p => p.1 = k)).getLast?).map Prod.snd
    ∧ sex_by_sample samples sex_of k
      = ((samples.filter (fun s => s.name = k)).getLast?).map sex_of
    ∧ cohort_fasta samples fasta_by = joinAll (samples.map (fun s => fasta_by s.name))
    ∧ (samples.map (fun s => fasta_by s.name)).length = samples.length := by
  refine ⟨pyDict_lookup _ k, ?_, rfl, by simp⟩
  rw [sex_by_sample, pyDict_lookup, List.filter_map, List.getLast?_map, Option.map_map]
  rfl

end ClearUp
